import Mathlib

/-!
Verification development for the rutilvm terminal dashboard
(src/rutilvm.py). Python strings are modelled as `List Char`; machine
integers and POSIX timestamps as `Int`/`Nat`. Each definition below is a
shallow embedding of the named Python function or loop fragment, with the
source line numbers given in its doc comment.
-/

set_option maxHeartbeats 1000000

namespace RutilVM

/-- Python `s.ljust(w)`: pad on the right with spaces up to `w` characters
(no-op when `s` is already at least `w` characters long). -/
def ljust (s : List Char) (w : Nat) : List Char :=
  s ++ List.replicate (w - s.length) ' '

/-- Python slice `s[:n]` for an `Int` bound `n`: a nonnegative bound takes
the first `n` characters, a negative bound counts from the end. -/
def pySliceTo (s : List Char) (n : Int) : List Char :=
  if 0 ≤ n then s.take n.toNat else s.take ((s.length : Int) + n).toNat

/-- rutilvm.py lines 58-63, `truncate_with_ellipsis(value, max_width)`:
a falsy value (None or the empty string) becomes "-"; a string longer than
`max_width` is cut to `value[:max_width - 2] + ".."`. -/
def truncate_with_ellipsis (value : Option (List Char)) (max_width : Nat) : List Char :=
  let v : List Char :=
    match value with
    | none => ['-']
    | some s => if s.isEmpty then ['-'] else s
  if max_width < v.length then pySliceTo v ((max_width : Int) - 2) ++ ['.', '.'] else v

/-- Column width of one glyph: 2 when its East-Asian-Width class is Full
or Wide, else 1. The classifier `unicodedata.east_asian_width` is an
external collaborator, passed in as the predicate `wide`. -/
def charW (wide : Char → Bool) (c : Char) : Nat :=
  if wide c then 2 else 1

/-- Display width of a string: the sum of its glyph widths
(rutilvm.py line 87). -/
def displayWidth (wide : Char → Bool) (s : List Char) : Nat :=
  (s.map (charW wide)).sum

/-- rutilvm.py lines 89-97: the truncation loop of the first
`get_display_width`. Accumulates characters while the running width stays
within `max_width - 2`, then appends ".." and stops. -/
def gdwTruncAux (wide : Char → Bool) (max_width : Nat) : List Char → Nat → List Char
  | [], _ => []
  | c :: rest, cur =>
    let cw := charW wide c
    if ((cur + cw : Nat) : Int) > (max_width : Int) - 2 then ['.', '.']
    else c :: gdwTruncAux wide max_width rest (cur + cw)

/-- rutilvm.py lines 82-99, the first `get_display_width(text, max_width)`
(width-aware version; shadowed at runtime by the redefinition at line
3407). If the display width exceeds `max_width` it truncates with ".."
and pads with `ljust(max_width)`; otherwise it returns
`text.ljust(max_width - (display_width - len(text)))`. -/
def get_display_width_v1 (wide : Char → Bool) (text : List Char) (max_width : Nat) : List Char :=
  let dw := displayWidth wide text
  if dw > max_width then ljust (gdwTruncAux wide max_width text 0) max_width
  else ljust text (max_width - (dw - text.length))

/-- rutilvm.py lines 3407-3413, the second module-level
`get_display_width(text, width)`. Being defined later at module scope it
shadows the first version, so every call site in the program resolves to
this length-based variant at runtime: a string longer than `width`
characters is cut to `text[:width]` (no ellipsis), otherwise it is
`ljust`-padded to `width` characters. -/
def get_display_width (text : List Char) (width : Nat) : List Char :=
  if width < text.length then text.take width else ljust text width

/-- Sample East-Asian-Width classifier used for concrete evaluations:
true exactly on the Hangul-syllable block U+AC00..U+D7A3, whose
characters are classified Wide by Unicode; false on ASCII. -/
def eaWideSample (c : Char) : Bool :=
  0xAC00 ≤ c.toNat && c.toNat ≤ 0xD7A3

/-- The display width of a string is at least its character count. -/
theorem length_le_displayWidth (wide : Char → Bool) (s : List Char) :
    s.length ≤ displayWidth wide s := by
  induction s with
  | nil => simp [displayWidth]
  | cons c rest ih =>
    have h1 : 1 ≤ charW wide c := by unfold charW; split <;> omega
    simp only [displayWidth, List.map_cons, List.sum_cons, List.length_cons] at *
    omega

/-- Display width distributes over append. -/
theorem displayWidth_append (wide : Char → Bool) (s t : List Char) :
    displayWidth wide (s ++ t) = displayWidth wide s + displayWidth wide t := by
  simp [displayWidth]

/-- Display width of a run of copies of one glyph. -/
theorem displayWidth_replicate (wide : Char → Bool) (n : Nat) (c : Char) :
    displayWidth wide (List.replicate n c) = n * charW wide c := by
  simp [displayWidth, List.map_replicate, List.sum_replicate, Nat.smul_one_eq_cast]

/-- The length-based `get_display_width` always returns exactly `width`
characters. -/
theorem get_display_width_length (text : List Char) (width : Nat) :
    (get_display_width text width).length = width := by
  unfold get_display_width ljust
  split <;> simp <;> omega

/-- C10: for every input value and every max_width at least 2,
`truncate_with_ellipsis(value, max_width)` returns at most `max_width`
characters; an input longer than `max_width` is cut to its first
`max_width - 2` characters followed by "..", of length exactly
`max_width`; a shorter input is returned unchanged; a falsy input (None
or the empty string) yields "-". -/
theorem truncate_with_ellipsis_spec (v : Option (List Char)) (w : Nat) (hw : 2 ≤ w) :
    (truncate_with_ellipsis v w).length ≤ w
    ∧ (∀ s : List Char, v = some s → s ≠ [] → w < s.length →
        truncate_with_ellipsis v w = s.take (w - 2) ++ ['.', '.']
        ∧ (truncate_with_ellipsis v w).length = w)
    ∧ (∀ s : List Char, v = some s → s ≠ [] → s.length ≤ w →
        truncate_with_ellipsis v w = s)
    ∧ ((v = none ∨ v = some []) → truncate_with_ellipsis v w = ['-']) := by
  have hdash : ∀ hv : v = none ∨ v = some [], truncate_with_ellipsis v w = ['-'] := by
    intro hv
    have : ¬ w < 1 := by omega
    rcases hv with h | h <;> subst h <;> simp [truncate_with_ellipsis, this]
  have hfull : ∀ s : List Char, s ≠ [] →
      truncate_with_ellipsis (some s) w
        = if w < s.length then s.take (w - 2) ++ ['.', '.'] else s := by
    intro s hne
    have hs : s.isEmpty = false := by
      cases s with
      | nil => exact absurd rfl hne
      | cons a l => rfl
    have h0 : (0 : Int) ≤ (w : Int) - 2 := by omega
    have ht : ((w : Int) - 2).toNat = w - 2 := by omega
    simp only [truncate_with_ellipsis, hs, Bool.false_eq_true, if_false, pySliceTo,
      h0, if_true, ht]
  refine ⟨?_, ?_, ?_, hdash⟩
  · cases v with
    | none =>
      rw [hdash (Or.inl rfl)]
      simp
      omega
    | some s =>
      by_cases hne : s = []
      · subst hne
        rw [hdash (Or.inr rfl)]
        simp
        omega
      · rw [hfull s hne]
        split
        · next h =>
          simp only [List.length_append, List.length_take, List.length_cons,
            List.length_nil]
          omega
        · next h => omega
  · intro s hv hne hlen
    subst hv
    rw [hfull s hne, if_pos hlen]
    refine ⟨rfl, ?_⟩
    simp only [List.length_append, List.length_take, List.length_cons,
      List.length_nil]
    omega
  · intro s hv hne hlen
    subst hv
    rw [hfull s hne, if_neg (by omega)]

/-- Witness for C10 at a concrete input: "hello" cut to width 4
gives "he..". -/
theorem truncate_with_ellipsis_spec_witness :
    truncate_with_ellipsis (some ['h', 'e', 'l', 'l', 'o']) 4
      = ['h', 'e'] ++ ['.', '.'] := by
  have h := truncate_with_ellipsis_spec (some ['h', 'e', 'l', 'l', 'o']) 4 (by decide)
  have h2 := h.2.1 ['h', 'e', 'l', 'l', 'o'] rfl (by decide) (by decide)
  exact h2.1

/-- C5 counterexample: padding does not reach display width `w` exactly
on Full/Wide glyphs. The runtime `get_display_width` (line 3407, the one
every call resolves to) pads the single Wide glyph U+AC00 to 4 characters,
giving display width 5, not 4; and even the shadowed width-aware version
(lines 82-99) renders three copies of U+AC00 at width 5 to display width
6, because its final `ljust` pads by character count, exceeding the
budget instead of matching it. -/
theorem get_display_width_exact_width_cex :
    displayWidth eaWideSample (get_display_width [(Char.ofNat 0xAC00)] 4) ≠ 4
    ∧ displayWidth eaWideSample
        (get_display_width_v1 eaWideSample
          [(Char.ofNat 0xAC00), (Char.ofNat 0xAC00), (Char.ofNat 0xAC00)] 5) ≠ 5 := by
  constructor
  · decide
  · decide

/-- C5 amended: the effective `get_display_width` (the line-3407
redefinition that shadows the width-aware one) returns exactly `width`
characters — so its output occupies exactly `width` display columns only
when no Full/Wide glyph is involved — and the shadowed width-aware
version (lines 82-99) does return display width exactly `max_width`
whenever the text fits within the budget (padding is with the narrow
space glyph). Neither function bounds the display width by `max_width`
in the truncation case for wide-glyph input, and the effective version
truncates without an ellipsis. -/
theorem get_display_width_amended :
    (∀ (text : List Char) (width : Nat),
      (get_display_width text width).length = width)
    ∧ (∀ (wide : Char → Bool) (text : List Char) (max_width : Nat),
        wide ' ' = false →
        displayWidth wide text ≤ max_width →
        displayWidth wide (get_display_width_v1 wide text max_width) = max_width) := by
  constructor
  · exact get_display_width_length
  · intro wide text mw hsp hfit
    have hlen : text.length ≤ displayWidth wide text :=
      length_le_displayWidth wide text
    unfold get_display_width_v1
    rw [if_neg (by omega)]
    unfold ljust
    rw [displayWidth_append, displayWidth_replicate]
    have hcw : charW wide ' ' = 1 := by simp [charW, hsp]
    rw [hcw]
    omega

/-- Witness for C5's amended theorem: the narrow string "ab" at width 4
fits the budget, and the width-aware version pads it to display width
exactly 4. -/
theorem get_display_width_amended_witness :
    displayWidth eaWideSample (get_display_width_v1 eaWideSample ['a', 'b'] 4) = 4 :=
  get_display_width_amended.2 eaWideSample ['a', 'b'] 4 (by decide) (by decide)

/-- Python `sep.join(parts)`. -/
def pyJoin (sep : List Char) : List (List Char) → List Char
  | [] => []
  | [x] => x
  | x :: y :: rest => x ++ sep ++ pyJoin sep (y :: rest)

/-- Python `s.strip()`: whitespace removed from both ends. -/
def pyStrip (s : List Char) : List Char :=
  ((s.dropWhile Char.isWhitespace).reverse.dropWhile Char.isWhitespace).reverse

/-- rutilvm.py lines 108-110, `ensure_non_empty(value)`: "-" for a falsy
value or one that strips to "N/A", else the value unchanged. -/
def ensure_non_empty (s : List Char) : List Char :=
  if s.isEmpty ∨ pyStrip s = ['N', '/', 'A'] then ['-'] else s

/-- One horizontal border line of `draw_table` (rutilvm.py lines 121-123):
a left corner, `col_widths`-sized runs of the horizontal bar joined by a
tee character, and a right corner. -/
def borderLine (l m r : Char) (col_widths : List Nat) : List Char :=
  [l] ++ pyJoin [m] (col_widths.map fun w => List.replicate w '─') ++ [r]

/-- One body or header line of `draw_table`: the cells joined by the
vertical bar and enclosed in vertical bars (rutilvm.py lines 125-134). -/
def rowLine (cells : List (List Char)) : List Char :=
  ['│'] ++ pyJoin ['│'] cells ++ ['│']

/-- The text lines emitted by one `draw_table` call, in order: top border,
header row, divider, body rows, bottom border. -/
structure RenderedTable where
  top : List Char
  headerRow : List Char
  divider : List Char
  body : List (List Char)
  footer : List Char

/-- rutilvm.py lines 112-141, `draw_table(stdscr, start_y, headers,
col_widths, data, row_func, current_row)`, modelled as the pure function
from its inputs to the emitted text lines. `data` stands for
`[row_func(item) for item in data]` (the per-item cell lists); screen
coordinates and the highlight attribute are rendering side effects with
no bearing on the emitted text. Cells go through `ensure_non_empty` and
then `get_display_width`, which at runtime is the line-3407 version. An
empty dataset produces exactly one placeholder row of "-" cells; the
bottom border is emitted at `start_y + 3 + max(len(data), 1)`. -/
def draw_table (headers : List (List Char)) (col_widths : List Nat)
    (data : List (List (List Char))) : RenderedTable :=
  { top := borderLine '┌' '┬' '┐' col_widths
    headerRow := rowLine ((headers.zip col_widths).map fun hw =>
      get_display_width hw.1 hw.2)
    divider := borderLine '├' '┼' '┤' col_widths
    body :=
      if data.isEmpty then
        [rowLine (col_widths.map fun w => get_display_width ['-'] w)]
      else
        data.map fun row =>
          rowLine (((row.map ensure_non_empty).zip col_widths).map fun dw =>
            get_display_width dw.1 dw.2)
    footer := borderLine '└' '┴' '┘' col_widths }

/-- Length of a Python join: the cell lengths plus one separator between
each adjacent pair. -/
theorem pyJoin_length (sep : List Char) :
    ∀ parts : List (List Char),
      (pyJoin sep parts).length
        = (parts.map List.length).sum + sep.length * (parts.length - 1)
  | [] => by simp [pyJoin]
  | [x] => by simp [pyJoin]
  | x :: y :: rest => by
    have ih := pyJoin_length sep (y :: rest)
    simp only [pyJoin, List.append_assoc, List.length_append, ih, List.map_cons,
      List.sum_cons, List.length_cons, Nat.add_sub_cancel, Nat.mul_succ]
    omega

/-- Length of a border line: depends only on the column widths. -/
theorem borderLine_length (l m r : Char) (col_widths : List Nat) :
    (borderLine l m r col_widths).length
      = if col_widths.isEmpty then 2
        else col_widths.sum + col_widths.length + 1 := by
  unfold borderLine
  have hm : ((col_widths.map fun w => List.replicate w '─').map List.length)
      = col_widths := by
    rw [List.map_map]
    apply List.ext_getElem
    · simp
    · intro i h1 h2
      simp [List.length_replicate]
  rw [List.length_append, List.length_append, pyJoin_length, hm, List.length_map]
  cases col_widths with
  | nil => simp
  | cons w ws =>
    simp only [List.isEmpty_cons, Bool.false_eq_true, if_false, List.sum_cons,
      List.length_cons, List.length_nil]
    omega

/-- Length of a row line whose cells were padded to the column widths. -/
theorem rowLine_length (cells : List (List Char)) (col_widths : List Nat)
    (h : cells.map List.length = col_widths) :
    (rowLine cells).length
      = if col_widths.isEmpty then 2
        else col_widths.sum + col_widths.length + 1 := by
  unfold rowLine
  have hlen : cells.length = col_widths.length := by
    rw [← h, List.length_map]
  rw [List.length_append, List.length_append, pyJoin_length, h, hlen]
  cases col_widths with
  | nil => simp
  | cons w ws =>
    simp only [List.isEmpty_cons, Bool.false_eq_true, if_false, List.sum_cons,
      List.length_cons, List.length_nil]
    omega

/-- A padded cell row has cell lengths exactly the column widths. -/
theorem padded_cells_lengths (row : List (List Char)) (col_widths : List Nat)
    (hr : row.length = col_widths.length) :
    (((row.map ensure_non_empty).zip col_widths).map fun dw =>
      get_display_width dw.1 dw.2).map List.length = col_widths := by
  rw [List.map_map]
  apply List.ext_getElem
  · simp [List.length_zip, hr]
  · intro i h1 h2
    simp only [List.getElem_map, Function.comp_apply, get_display_width_length,
      List.getElem_zip]

/-- C6: for every table drawn by `draw_table`, the number of emitted body
rows equals `max(dataRowCount, 1)` — an empty dataset yields exactly one
placeholder row — the three border lines (top, divider, bottom) have
identical lengths that are a function of the column widths alone, so the
border width is constant regardless of content, and whenever each data
row supplies one cell per column, every body line is exactly as wide as
the border lines. -/
theorem draw_table_shape (headers : List (List Char)) (col_widths : List Nat)
    (data data2 : List (List (List Char))) :
    (draw_table headers col_widths data).body.length = max data.length 1
    ∧ (draw_table headers col_widths data).top
        = (draw_table headers col_widths data2).top
    ∧ (draw_table headers col_widths data).footer
        = (draw_table headers col_widths data2).footer
    ∧ (draw_table headers col_widths data).top.length
        = (draw_table headers col_widths data).divider.length
    ∧ (draw_table headers col_widths data).divider.length
        = (draw_table headers col_widths data).footer.length
    ∧ ((∀ row ∈ data, row.length = col_widths.length) →
        ∀ line ∈ (draw_table headers col_widths data).body,
          line.length = (draw_table headers col_widths data).top.length) := by
  have htop : (draw_table headers col_widths data).top
      = borderLine '┌' '┬' '┐' col_widths := rfl
  refine ⟨?_, rfl, rfl, ?_, ?_, ?_⟩
  · cases data with
    | nil => simp [draw_table]
    | cons a l =>
      simp only [draw_table, List.isEmpty_cons, Bool.false_eq_true, if_false,
        List.length_map, List.length_cons]
      omega
  · rw [htop,
      show (draw_table headers col_widths data).divider
        = borderLine '├' '┼' '┤' col_widths from rfl,
      borderLine_length, borderLine_length]
  · rw [show (draw_table headers col_widths data).divider
        = borderLine '├' '┼' '┤' col_widths from rfl,
      show (draw_table headers col_widths data).footer
        = borderLine '└' '┴' '┘' col_widths from rfl,
      borderLine_length, borderLine_length]
  · intro hrows line hline
    rw [htop, borderLine_length]
    cases data with
    | nil =>
      simp only [draw_table, List.isEmpty_nil, if_true, List.mem_singleton] at hline
      subst hline
      have hc : ((col_widths.map fun w => get_display_width ['-'] w).map List.length)
          = col_widths := by
        rw [List.map_map]
        apply List.ext_getElem
        · simp
        · intro i h1 h2
          simp [get_display_width_length]
      rw [rowLine_length _ col_widths hc]
    | cons a l =>
      simp only [draw_table, List.isEmpty_cons, Bool.false_eq_true, if_false,
        List.mem_map] at hline
      obtain ⟨row, hrow, hrfl⟩ := hline
      subst hrfl
      rw [rowLine_length _ col_widths
        (padded_cells_lengths row col_widths (hrows row hrow))]

/-- Witness for C6 at a concrete table: one 2-column data row of matching
arity renders as wide as the border. -/
theorem draw_table_shape_witness :
    ∀ line ∈ (draw_table [['H'], ['K']] [3, 2] [[['x'], ['y']]]).body,
      line.length = (draw_table [['H'], ['K']] [3, 2] [[['x'], ['y']]]).top.length :=
  (draw_table_shape [['H'], ['K']] [3, 2] [[['x'], ['y']]] []).2.2.2.2.2
    (by decide)

/-- Python `s.lower()` (ASCII case folding, which covers every character
the Events screen can feed it: the search box accepts key codes 32-126
only, and severity names are ASCII). -/
def lowerL (s : List Char) : List Char := s.map Char.toLower

/-- Python `s.upper()` (ASCII case folding). -/
def upperL (s : List Char) : List Char := s.map Char.toUpper

/-- Boolean string-prefix test, the building block of Python `in`. -/
def isPrefixB : List Char → List Char → Bool
  | [], _ => true
  | _ :: _, [] => false
  | a :: as, b :: bs => a == b && isPrefixB as bs

/-- Python `needle in hay` on strings: some suffix of `hay` starts
with `needle`. -/
def containsSub (needle : List Char) : List Char → Bool
  | [] => needle.isEmpty
  | h :: t => isPrefixB needle (h :: t) || containsSub needle t

/-- One event record as the Events screen reads it: `description` is an
optional string (`None` and `""` are both falsy), `severity` is the
optional severity enum's name (the enum object is truthy whenever
present), and `timeStr` is `ev.time.strftime('%Y-%m-%d %H:%M:%S')` when
`ev.time` is present (`strftime` is external; its output is embedded as
data). -/
structure PyEvent where
  description : Option (List Char)
  severity : Option (List Char)
  timeStr : Option (List Char)
deriving DecidableEq

/-- rutilvm.py lines 4221-4226 (and the identical lists at 4254-4259,
4407-4412, 4433-4438): one event matches the free-text query `sq`
(already lowercased) iff its description, severity name (lowercased), or
formatted time contains `sq`. -/
def matchesSearch (sq : List Char) (ev : PyEvent) : Bool :=
  (match ev.description with
   | some d => !d.isEmpty && containsSub sq (lowerL d)
   | none => false)
  || (match ev.severity with
      | some s => containsSub sq (lowerL s)
      | none => false)
  || (match ev.timeStr with
      | some t => containsSub sq t
      | none => false)

/-- rutilvm.py lines 4228-4231 (and 4261-4264, 4413-4416, 4439-4442):
one event matches the severity filter `f` iff it has a severity whose
uppercased name equals `f`. -/
def matchesSeverity (f : List Char) (ev : PyEvent) : Bool :=
  match ev.severity with
  | some s => f == upperL s
  | none => false

/-- rutilvm.py lines 4250-4265, the Events filter pipeline: the free-text
pass runs first (skipped for an empty query, with the query lowercased),
then the severity pass (skipped for an empty filter). -/
def applyFilter (events : List PyEvent) (search_query severity_filter : List Char) :
    List PyEvent :=
  let t1 := if search_query.isEmpty then events
            else events.filter (matchesSearch (lowerL search_query))
  if severity_filter.isEmpty then t1 else t1.filter (matchesSeverity severity_filter)

/-- The filter-relevant state of the Events screen (rutilvm.py lines
4136-4141): committed search text, text being typed, committed severity
filter (empty string means none), page and highlighted row. -/
structure EventsState where
  search_query : List Char
  pending_search : List Char
  severity_filter : List Char
  current_page : Nat
  selected_row : Nat
deriving DecidableEq

/-- rutilvm.py lines 4216-4241, Enter in the search box: the candidate
filter (`pending_search` with the current severity filter) is evaluated
speculatively against the full dataset; an empty result shows the
"No events found." popup (the returned flag) and commits nothing,
otherwise `search_query` is committed and page and cursor reset to 0. -/
def eventsSearchEnter (events : List PyEvent) (st : EventsState) :
    EventsState × Bool :=
  let temp := applyFilter events st.pending_search st.severity_filter
  if temp.isEmpty then (st, true)
  else ({ st with
            search_query := st.pending_search, current_page := 0, selected_row := 0 },
        false)

/-- rutilvm.py lines 4399-4449, the W/E severity keys (`sev` is "WARNING"
or "ERROR"): the candidate filter (current `search_query` with the new
severity) is evaluated speculatively — the search pass is guarded by
`if search_query:` and the severity pass runs unconditionally; an empty
result shows the popup and restores the old severity (the net state is
unchanged), otherwise the new severity stays committed and page and
cursor reset to 0. -/
def eventsSeverityKey (events : List PyEvent) (sev : List Char) (st : EventsState) :
    EventsState × Bool :=
  let t1 := if st.search_query.isEmpty then events
            else events.filter (matchesSearch (lowerL st.search_query))
  let temp := t1.filter (matchesSeverity sev)
  if temp.isEmpty then (st, true)
  else ({ st with
            severity_filter := sev, current_page := 0, selected_row := 0 },
        false)

/-- For a non-empty severity candidate the speculative filter of the W/E
handler coincides with the committed pipeline `applyFilter`. -/
theorem severityKey_temp_eq (events : List PyEvent) (sev : List Char)
    (st : EventsState) (hsev : ¬ sev.isEmpty) :
    ((if st.search_query.isEmpty then events
      else events.filter (matchesSearch (lowerL st.search_query))).filter
        (matchesSeverity sev))
      = applyFilter events st.search_query sev := by
  unfold applyFilter
  rw [if_neg hsev]

/-- C8: a record passes the Events filter pipeline iff it matches the
severity category (when one is set) and either the free text is empty or
one of the searchable fields (description, severity name, formatted
time) contains it case-insensitively; passing records keep their
original order, as the pipeline is a composition of `filter`s. The
second conjunct is the spec's scenario: free text "err" against
descriptions ["disk error", "ok", "network error"] yields exactly the
first and third records, in order. -/
theorem events_filter_composition :
    (∀ (events : List PyEvent) (sq f : List Char),
      applyFilter events sq f
        = events.filter fun ev =>
            (f.isEmpty || matchesSeverity f ev)
            && (sq.isEmpty || matchesSearch (lowerL sq) ev))
    ∧ applyFilter
        [⟨some ['d','i','s','k',' ','e','r','r','o','r'], some ['N','o','r','m','a','l'], none⟩,
         ⟨some ['o','k'], some ['N','o','r','m','a','l'], none⟩,
         ⟨some ['n','e','t','w','o','r','k',' ','e','r','r','o','r'], some ['E','r','r','o','r'], none⟩]
        ['e','r','r'] []
      = [⟨some ['d','i','s','k',' ','e','r','r','o','r'], some ['N','o','r','m','a','l'], none⟩,
         ⟨some ['n','e','t','w','o','r','k',' ','e','r','r','o','r'], some ['E','r','r','o','r'], none⟩] := by
  constructor
  · intro events sq f
    unfold applyFilter
    by_cases hsq : sq.isEmpty <;> by_cases hf : f.isEmpty
    · simp [hsq, hf]
    · simp only [hsq, if_true, hf, if_false, Bool.true_or, Bool.and_true]
      apply List.filter_congr
      intro a _
      simp [hf]
    · simp only [hsq, if_false, hf, if_true, Bool.true_or, Bool.true_and]
      apply List.filter_congr
      intro a _
      simp [hsq]
    · rw [if_neg hsq, if_neg hf, List.filter_filter]
      apply List.filter_congr
      intro a _
      have hsq2 : sq.isEmpty = false := by revert hsq; cases sq.isEmpty <;> simp
      have hf2 : f.isEmpty = false := by revert hf; cases f.isEmpty <;> simp
      rw [hsq2, hf2]
      simp [Bool.and_comm]
  · decide

/-- C1: committing a filter change on the Events screen (Enter in the
search box, or a W/E severity key) first evaluates the candidate filter
speculatively; if the result is empty the popup flag is raised and the
whole state — in particular the committed (search_query,
severity_filter) pair — is exactly what it was before; otherwise the
candidate is committed, page and cursor reset to 0, and the committed
filter still selects a non-empty view. -/
theorem events_filter_guard (events : List PyEvent) (st : EventsState)
    (sev : List Char) :
    (applyFilter events st.pending_search st.severity_filter = [] →
      eventsSearchEnter events st = (st, true))
    ∧ (applyFilter events st.pending_search st.severity_filter ≠ [] →
        (eventsSearchEnter events st).1.search_query = st.pending_search
        ∧ (eventsSearchEnter events st).1.severity_filter = st.severity_filter
        ∧ (eventsSearchEnter events st).1.current_page = 0
        ∧ (eventsSearchEnter events st).1.selected_row = 0
        ∧ (eventsSearchEnter events st).2 = false
        ∧ applyFilter events (eventsSearchEnter events st).1.search_query
            (eventsSearchEnter events st).1.severity_filter ≠ [])
    ∧ (¬ sev.isEmpty → applyFilter events st.search_query sev = [] →
        eventsSeverityKey events sev st = (st, true))
    ∧ (¬ sev.isEmpty → applyFilter events st.search_query sev ≠ [] →
        (eventsSeverityKey events sev st).1.severity_filter = sev
        ∧ (eventsSeverityKey events sev st).1.search_query = st.search_query
        ∧ (eventsSeverityKey events sev st).1.current_page = 0
        ∧ (eventsSeverityKey events sev st).1.selected_row = 0
        ∧ (eventsSeverityKey events sev st).2 = false
        ∧ applyFilter events (eventsSeverityKey events sev st).1.search_query
            (eventsSeverityKey events sev st).1.severity_filter ≠ []) := by
  refine ⟨?_, ?_, ?_, ?_⟩
  · intro h
    unfold eventsSearchEnter
    rw [h]
    simp
  · intro h
    have hne : ¬ (applyFilter events st.pending_search st.severity_filter).isEmpty := by
      simpa [List.isEmpty_iff] using h
    unfold eventsSearchEnter
    simp only [hne, if_false]
    exact ⟨rfl, rfl, rfl, rfl, rfl, by simpa [List.isEmpty_iff] using h⟩
  · intro hsev h
    simp only [eventsSeverityKey]
    rw [severityKey_temp_eq events sev st hsev, h]
    simp
  · intro hsev h
    have hne : ¬ (applyFilter events st.search_query sev).isEmpty := by
      simpa [List.isEmpty_iff] using h
    simp only [eventsSeverityKey]
    rw [severityKey_temp_eq events sev st hsev]
    simp only [hne, if_false]
    exact ⟨rfl, rfl, rfl, rfl, rfl, by simpa [List.isEmpty_iff] using h⟩

/-- Witness for C1 at concrete inputs: with one NORMAL "boot ok" event,
committing the pending search "xyz" is rejected and leaves the state
intact, while the W key on a dataset with one WARNING event commits the
severity and resets page and cursor. -/
theorem events_filter_guard_witness :
    eventsSearchEnter
        [⟨some ['b','o','o','t',' ','o','k'], some ['N','o','r','m','a','l'], none⟩]
        ⟨[], ['x','y','z'], [], 3, 2⟩
      = (⟨[], ['x','y','z'], [], 3, 2⟩, true)
    ∧ (eventsSeverityKey
        [⟨some ['b','a','d'], some ['W','a','r','n','i','n','g'], none⟩]
        ['W','A','R','N','I','N','G'] ⟨[], [], [], 3, 2⟩).1.current_page = 0 := by
  constructor
  · exact (events_filter_guard
      [⟨some ['b','o','o','t',' ','o','k'], some ['N','o','r','m','a','l'], none⟩]
      ⟨[], ['x','y','z'], [], 3, 2⟩ []).1 (by decide)
  · exact ((events_filter_guard
      [⟨some ['b','a','d'], some ['W','a','r','n','i','n','g'], none⟩]
      ⟨[], [], [], 3, 2⟩ ['W','A','R','N','I','N','G']).2.2.2 (by decide)
      (by decide)).2.2.1

/-- One VM record of the Virtual Machines screen snapshot; `status` is
`vm.status.value` (only equality on it is ever used here). -/
structure VmSdk where
  id : List Char
  status : List Char
deriving DecidableEq

/-- The poll-relevant state of the Virtual Machines screen main loop
(rutilvm.py lines 376-411): the VM snapshot, the page and highlighted row
of its paged table, and the time of the last VM poll. -/
structure VmScreenState where
  vms : List VmSdk
  current_page : Nat
  current_row : Nat
  last_vm_poll : Int
deriving DecidableEq

/-- rutilvm.py lines 399-411, one tick of the VM-status poll with
`vm_poll_interval = 1.0`: when due, the snapshot is replaced by the fetch
result on success and kept on any exception (`except Exception: pass`),
and `last_vm_poll = now` is set in both cases; an undue tick changes
nothing. The poll path never touches `current_page` or `current_row`. -/
def vmPollStep (now : Int) (fetch : Except Unit (List VmSdk))
    (st : VmScreenState) : VmScreenState :=
  if 1 ≤ now - st.last_vm_poll then
    { st with
      vms := match fetch with
             | .ok nv => nv
             | .error _ => st.vms,
      last_vm_poll := now }
  else st

/-- The per-host resource row computed by the host poll (rutilvm.py lines
508-513): cpu, memory, data center and cluster cells. -/
structure HostUsage where
  cpu : List Char
  memory : List Char
  data_center : List Char
  cluster : List Char
deriving DecidableEq

/-- The host-resource-usage poll state of the Virtual Machines screen
(rutilvm.py lines 388-390): cached host list, cached usage map keyed by
host name, and the time of the last host poll. -/
structure HostPollState where
  cached_hosts : List (List Char)
  cached_usage : List (List Char × HostUsage)
  last_host_poll : Int
deriving DecidableEq

/-- rutilvm.py lines 477-519, one tick of the host-resource poll with
`host_poll_interval = 1.0`: when due, a successful `hosts_service.list()`
replaces both `cached_hosts` and `cached_usage` (the per-host statistics
computation of lines 482-515 is external data carried in the fetch
result; per-host failures are absorbed into "N/A" rows by the inner
try/except), a failing fetch leaves both caches unchanged
(`except Exception: pass`), and `last_host_poll = now` is set in both
cases; an undue tick changes nothing. -/
def hostPollStep (now : Int)
    (fetch : Except Unit (List (List Char) × List (List Char × HostUsage)))
    (st : HostPollState) : HostPollState :=
  if 1 ≤ now - st.last_host_poll then
    match fetch with
    | .ok r => { cached_hosts := r.1, cached_usage := r.2, last_host_poll := now }
    | .error _ => { st with last_host_poll := now }
  else st

/-- An undue VM-poll tick performs no fetch and changes nothing. -/
theorem vmPollStep_undue (now : Int) (fetch : Except Unit (List VmSdk))
    (s : VmScreenState) (h : now - s.last_vm_poll < 1) :
    vmPollStep now fetch s = s := by
  unfold vmPollStep
  rw [if_neg (by omega)]

/-- An undue host-poll tick performs no fetch and changes nothing. -/
theorem hostPollStep_undue (now : Int)
    (fetch : Except Unit (List (List Char) × List (List Char × HostUsage)))
    (s : HostPollState) (h : now - s.last_host_poll < 1) :
    hostPollStep now fetch s = s := by
  unfold hostPollStep
  rw [if_neg (by omega)]

/-- C3: for both periodic polls of the Virtual Machines screen, a failed
fetch leaves the displayed snapshot unchanged while still advancing the
last-run timestamp to `now`, so the next fetch attempt cannot happen
before `now + interval`; a tick before the interval has elapsed performs
no fetch and changes nothing; the snapshot is replaced exactly on a
successful fetch; and after three consecutive failed fetches the
snapshot equals the one from before the first failure. -/
theorem poll_failure_retention (st : VmScreenState) (hs : HostPollState)
    (now n1 n2 n3 : Int) (fetch : Except Unit (List VmSdk))
    (hfetch : Except Unit (List (List Char) × List (List Char × HostUsage))) :
    (1 ≤ now - st.last_vm_poll →
      (vmPollStep now (.error ()) st).vms = st.vms
      ∧ (vmPollStep now (.error ()) st).last_vm_poll = now
      ∧ (vmPollStep now (.error ()) st).current_page = st.current_page
      ∧ (vmPollStep now (.error ()) st).current_row = st.current_row)
    ∧ (now - st.last_vm_poll < 1 → vmPollStep now fetch st = st)
    ∧ (∀ nv : List VmSdk, 1 ≤ now - st.last_vm_poll →
        (vmPollStep now (.ok nv) st).vms = nv)
    ∧ (vmPollStep n3 (.error ())
        (vmPollStep n2 (.error ()) (vmPollStep n1 (.error ()) st))).vms = st.vms
    ∧ (1 ≤ n1 - st.last_vm_poll → n2 - n1 < 1 →
        vmPollStep n2 fetch (vmPollStep n1 (.error ()) st)
          = vmPollStep n1 (.error ()) st)
    ∧ (1 ≤ now - hs.last_host_poll →
        (hostPollStep now (.error ()) hs).cached_hosts = hs.cached_hosts
        ∧ (hostPollStep now (.error ()) hs).cached_usage = hs.cached_usage
        ∧ (hostPollStep now (.error ()) hs).last_host_poll = now)
    ∧ (now - hs.last_host_poll < 1 → hostPollStep now hfetch hs = hs)
    ∧ (hostPollStep n3 (.error ())
        (hostPollStep n2 (.error ()) (hostPollStep n1 (.error ()) hs))).cached_usage
        = hs.cached_usage := by
  have hvmerr : ∀ (m : Int) (s : VmScreenState),
      (vmPollStep m (.error ()) s).vms = s.vms := by
    intro m s
    unfold vmPollStep
    split <;> rfl
  have hherr : ∀ (m : Int) (s : HostPollState),
      (hostPollStep m (.error ()) s).cached_usage = s.cached_usage := by
    intro m s
    unfold hostPollStep
    split <;> rfl
  refine ⟨?_, ?_, ?_, ?_, ?_, ?_, ?_, ?_⟩
  · intro hdue
    unfold vmPollStep
    rw [if_pos hdue]
    exact ⟨rfl, rfl, rfl, rfl⟩
  · intro hundue
    exact vmPollStep_undue now fetch st hundue
  · intro nv hdue
    unfold vmPollStep
    rw [if_pos hdue]
  · rw [hvmerr, hvmerr, hvmerr]
  · intro hdue hearly
    have hlast : (vmPollStep n1 (.error ()) st).last_vm_poll = n1 := by
      unfold vmPollStep
      rw [if_pos hdue]
    exact vmPollStep_undue n2 fetch _ (by rw [hlast]; omega)
  · intro hdue
    unfold hostPollStep
    rw [if_pos hdue]
    exact ⟨rfl, rfl, rfl⟩
  · intro hundue
    exact hostPollStep_undue now hfetch hs hundue
  · rw [hherr, hherr, hherr]

/-- Witness for C3 at a concrete state: a due failing VM poll at time 7
keeps the single-element snapshot and stamps time 7. -/
theorem poll_failure_retention_witness :
    (vmPollStep 7 (.error ()) ⟨[⟨['a'], ['u','p']⟩], 0, 0, 2⟩).vms
        = [(⟨['a'], ['u','p']⟩ : VmSdk)]
    ∧ (vmPollStep 7 (.error ()) ⟨[⟨['a'], ['u','p']⟩], 0, 0, 2⟩).last_vm_poll = 7 := by
  have h := poll_failure_retention ⟨[⟨['a'], ['u','p']⟩], 0, 0, 2⟩ ⟨[], [], 0⟩
    7 0 0 0 (.error ()) (.error ())
  have h1 := h.1 (by decide)
  exact ⟨h1.1, h1.2.1⟩

/-- rutilvm.py line 378: `total_pages` of the Virtual Machines list, with
`rows_per_page = 20` (computed once, before the main loop). -/
def vm_total_pages (n : Nat) : Nat := (n + 20 - 1) / 20

/-- rutilvm.py line 4299: `total_pages` of the Events table, with
`rows_per_page = 40`. -/
def eventsTotalPages (n : Nat) : Nat := max 1 ((n + 40 - 1) / 40)

/-- rutilvm.py lines 4300-4302: the Events screen per-render clamp of
`current_page` (with `selected_row` reset to 0 when it fires). -/
def eventsClamp (n page row : Nat) : Nat × Nat :=
  if eventsTotalPages n ≤ page then (max 0 (eventsTotalPages n - 1), 0) else (page, row)

/-- rutilvm.py line 1443: `total_vm_pages` of the cluster-detail VM table,
with `rows_per_vm_page = 7`. -/
def clusterVmTotalPages (n : Nat) : Nat := max 1 ((n + 7 - 1) / 7)

/-- rutilvm.py lines 1444-1445: the Clusters screen per-render clamp of
the detail `vm_page`. -/
def clusterClampVmPage (n page : Nat) : Nat :=
  if clusterVmTotalPages n ≤ page then clusterVmTotalPages n - 1 else page

/-- C4 counterexample: the Virtual Machines screen never clamps its page
when a poll shrinks the dataset. Starting on page 1 of a 21-VM snapshot
(2 pages of 20), a successful due poll that returns a single VM leaves
`current_page = 1`, which violates `page < ceil(newCount/pageSize) = 1`
before the next render. -/
theorem vm_screen_page_not_clamped_cex :
    (vmPollStep 5 (.ok [⟨['b'], ['u','p']⟩])
        ⟨List.replicate 21 ⟨['a'], ['u','p']⟩, 1, 0, 0⟩).current_page = 1
    ∧ (vmPollStep 5 (.ok [⟨['b'], ['u','p']⟩])
        ⟨List.replicate 21 ⟨['a'], ['u','p']⟩, 1, 0, 0⟩).vms.length = 1
    ∧ ¬ ((vmPollStep 5 (.ok [⟨['b'], ['u','p']⟩])
        ⟨List.replicate 21 ⟨['a'], ['u','p']⟩, 1, 0, 0⟩).current_page
          < vm_total_pages (vmPollStep 5 (.ok [⟨['b'], ['u','p']⟩])
              ⟨List.replicate 21 ⟨['a'], ['u','p']⟩, 1, 0, 0⟩).vms.length) := by
  refine ⟨rfl, rfl, ?_⟩
  decide

/-- C4 amended: the tables that do clamp — the Events table (per-render,
lines 4299-4302) and the cluster-detail VM table (lines 1443-1445) —
keep `page < max(1, ceil(count/pageSize))` after the clamp, for every
count including zero (when the dataset is empty the page is 0, not
`< ceil(0/pageSize) = 0`); the Virtual Machines screen's main table has
no such clamp: its poll step never modifies `current_page`, so a shrink
can leave `page ≥ ceil(newCount/pageSize)` (see the counterexample). -/
theorem page_clamp_amended :
    (∀ n page row : Nat, (eventsClamp n page row).1 < eventsTotalPages n)
    ∧ (∀ n page : Nat, clusterClampVmPage n page < clusterVmTotalPages n)
    ∧ (∀ (now : Int) (fetch : Except Unit (List VmSdk)) (st : VmScreenState),
        (vmPollStep now fetch st).current_page = st.current_page) := by
  refine ⟨?_, ?_, ?_⟩
  · intro n page row
    unfold eventsClamp eventsTotalPages
    split
    · next h => simp; omega
    · next h => omega
  · intro n page
    unfold clusterClampVmPage clusterVmTotalPages
    split
    · next h => omega
    · next h => omega
  · intro now fetch st
    unfold vmPollStep
    split
    · rfl
    · rfl

/-- rutilvm.py lines 418-420 (with line 378's formula): the visible slice
of a paged table, `vms[start_idx:end_idx]` with `start_idx = page * rpp`
and `end_idx = min(start_idx + rpp, len(vms))`. -/
def vm_page_slice (rpp : Nat) (vms : List α) (page : Nat) : List α :=
  (vms.take (min (page * rpp + rpp) vms.length)).drop (page * rpp)

/-- rutilvm.py line 378 generalized over the per-screen row count:
`total_pages = (len(vms) + rows_per_page - 1) // rows_per_page`. -/
def vm_total_pages_of (rpp n : Nat) : Nat := (n + rpp - 1) / rpp

/-- rutilvm.py lines 570-573: the `n` key of the Virtual Machines screen
advances the page only when `current_page < total_pages - 1`, resetting
the cursor; otherwise the `elif` guard fails and nothing changes. -/
def vm_next_key (total_pages page row : Nat) : Nat × Nat :=
  if page < total_pages - 1 then (page + 1, 0) else (page, row)

/-- rutilvm.py lines 574-577: the `p` key of the Virtual Machines screen
goes back only when `current_page > 0`, resetting the cursor. -/
def vm_prev_key (page row : Nat) : Nat × Nat :=
  if 0 < page then (page - 1, 0) else (page, row)

/-- rutilvm.py lines 3370-3372: the `n` key of the Storage Disks screen,
`page = (page + 1) % total_pages; current_idx = 0`. -/
def disk_next_key (total_pages page _idx : Nat) : Nat × Nat :=
  ((page + 1) % total_pages, 0)

/-- rutilvm.py lines 3373-3375: the `p` key of the Storage Disks screen,
`page = (page - 1) % total_pages; current_idx = 0` (Python `%` on a
possibly negative left operand, hence the `Int.emod`). -/
def disk_prev_key (total_pages page _idx : Nat) : Nat × Nat :=
  (((((page : Int) - 1) % (total_pages : Int))).toNat, 0)

/-- C7: under the clamped policy of the Virtual Machines list, `next` at
the last page and `prev` at page 0 change nothing; the illustrating
scenario — dataset `[a, b, c]` with page size 2 — shows page 0 as
`[a, b]`, page 1 as `[c]`, and `next` at page 1 as a no-op; the Storage
Disks screen is the exception: its `next`/`prev` advance the page
cyclically modulo the page count — `next` on the last page wraps to 0,
`prev` on page 0 wraps to the last page, and an inner `next` simply
increments — and both always reset the cursor to row 0. -/
theorem paging_policy (a b c : VmSdk) (n page row idx total : Nat) :
    (vm_total_pages_of 20 n ≤ page + 1 →
      vm_next_key (vm_total_pages_of 20 n) page row = (page, row))
    ∧ vm_prev_key 0 row = (0, row)
    ∧ vm_page_slice 2 [a, b, c] 0 = [a, b]
    ∧ vm_page_slice 2 [a, b, c] 1 = [c]
    ∧ vm_next_key (vm_total_pages_of 2 3) 1 row = (1, row)
    ∧ (0 < total → disk_next_key total (total - 1) idx = (0, 0))
    ∧ (0 < total → disk_prev_key total 0 idx = (total - 1, 0))
    ∧ (page + 1 < total → disk_next_key total page idx = (page + 1, 0)) := by
  refine ⟨?_, ?_, ?_, ?_, ?_, ?_, ?_, ?_⟩
  · intro h
    unfold vm_next_key
    rw [if_neg (by omega)]
  · unfold vm_prev_key
    rw [if_neg (by omega)]
  · rfl
  · rfl
  · rfl
  · intro h
    unfold disk_next_key
    rw [Nat.sub_add_cancel h, Nat.mod_self]
  · intro h
    unfold disk_prev_key
    have h1 : ((0 : Int) - 1) % (total : Int) = (total : Int) - 1 := by
      have e1 : ((0 : Int) - 1) = (total : Int) - 1 + (total : Int) * (-1) := by ring
      rw [e1, Int.add_mul_emod_self_left, Int.emod_eq_of_lt (by omega) (by omega)]
    simp only [Nat.cast_zero, h1]
    congr 1
    omega
  · intro h
    unfold disk_next_key
    rw [Nat.mod_eq_of_lt (by omega)]

/-- Witness for C7 at concrete inputs: with 3 items and page size 20
there is a single page, `next` is a no-op there; with 4 disk pages,
`next` on page 3 wraps to page 0 and `prev` on page 0 wraps to page 3,
cursor 0. -/
theorem paging_policy_witness :
    vm_next_key (vm_total_pages_of 20 3) 0 5 = (0, 5)
    ∧ disk_next_key 4 3 9 = (0, 0)
    ∧ disk_prev_key 4 0 9 = (3, 0) := by
  have h := paging_policy (VmSdk.mk [] []) (VmSdk.mk [] []) (VmSdk.mk [] [])
    3 0 5 9 4
  refine ⟨h.1 (by decide), h.2.2.2.2.2.1 (by decide), ?_⟩
  have h2 := h.2.2.2.2.2.2.1 (by decide)
  simpa using h2

/-- The module-level `_USERS_CACHE` dict (rutilvm.py line 3419): one
entry per engine host, holding `(stored_time, output)`. -/
def UsersCache : Type := List (List Char × (Int × List Char))

/-- Python `host in _USERS_CACHE` / `_USERS_CACHE[host]`: first (only)
entry for the key. -/
def cacheLookup (c : UsersCache) (host : List Char) : Option (Int × List Char) :=
  match c with
  | [] => none
  | (k, v) :: rest => if k = host then some v else cacheLookup rest host

/-- Python `_USERS_CACHE[host] = value`: replace or add the entry. -/
def cacheSet (c : UsersCache) (host : List Char) (v : Int × List Char) : UsersCache :=
  (host, v) :: (c : List (List Char × (Int × List Char))).filter
    (fun p => decide (p.1 ≠ host))

/-- rutilvm.py lines 3443-3449, `clear_users_cache(engine_host)`:
`del _USERS_CACHE[engine_host]` when present. -/
def clear_users_cache (host : List Char) (c : UsersCache) : UsersCache :=
  (c : List (List Char × (Int × List Char))).filter (fun p => decide (p.1 ≠ host))

/-- rutilvm.py lines 3422-3441, `get_users_output(engine_host)` with
`_CACHE_TIMEOUT = 5`: a cached entry younger than 5 seconds is returned
as-is; otherwise the SSH query runs (modelled as its result
`run_query`, an exception carrying stderr on a nonzero exit), a raised
exception leaves the cache untouched, and a successful output is stored
under `(current_time, output)` and returned. -/
def get_users_output (now : Int) (run_query : Except (List Char) (List Char))
    (host : List Char) (cache : UsersCache) :
    Except (List Char) (List Char × UsersCache) :=
  match cacheLookup cache host with
  | some (t, out) =>
    if now - t < 5 then .ok (out, cache)
    else
      match run_query with
      | .error e => .error e
      | .ok out2 => .ok (out2, cacheSet cache host (now, out2))
  | none =>
    match run_query with
    | .error e => .error e
    | .ok out2 => .ok (out2, cacheSet cache host (now, out2))

/-- Clearing a host removes its entry. -/
theorem cacheLookup_clear (host : List Char) (c : UsersCache) :
    cacheLookup (clear_users_cache host c) host = none := by
  induction c with
  | nil => rfl
  | cons p rest ih =>
    unfold clear_users_cache at ih ⊢
    rw [List.filter_cons]
    by_cases hp : p.1 = host
    · rw [if_neg (by simp [hp])]
      exact ih
    · rw [if_pos (by simp [hp])]
      unfold cacheLookup
      rw [if_neg hp]
      exact ih

/-- C9: a `get_users_output` lookup is a hit — returning the stored
output with the cache unchanged, never consulting the remote query —
iff an entry for the host exists and `now - storedAt < 5`; expiry is
checked lazily at lookup time. On a stale entry or a missing one the
query runs: its failure is propagated with the cache untouched, and its
success is returned and stored under the current time, so an immediate
re-lookup hits. After `clear_users_cache` the entry is gone and the next
lookup re-runs the query. -/
theorem users_cache_ttl (now : Int) (host : List Char) (cache : UsersCache)
    (q : Except (List Char) (List Char)) :
    (∀ t out, cacheLookup cache host = some (t, out) → now - t < 5 →
      get_users_output now q host cache = .ok (out, cache))
    ∧ (∀ t out, cacheLookup cache host = some (t, out) → 5 ≤ now - t →
        get_users_output now q host cache
          = match q with
            | .error e => .error e
            | .ok out2 => .ok (out2, cacheSet cache host (now, out2)))
    ∧ (cacheLookup cache host = none →
        get_users_output now q host cache
          = match q with
            | .error e => .error e
            | .ok out2 => .ok (out2, cacheSet cache host (now, out2)))
    ∧ (∀ out2, cacheLookup (cacheSet cache host (now, out2)) host = some (now, out2))
    ∧ (∀ e, q = .error e → cacheLookup cache host = none →
        get_users_output now q host cache = .error e)
    ∧ (get_users_output now q host (clear_users_cache host cache)
        = match q with
          | .error e => .error e
          | .ok out2 =>
            .ok (out2, cacheSet (clear_users_cache host cache) host (now, out2))) := by
  refine ⟨?_, ?_, ?_, ?_, ?_, ?_⟩
  · intro t out hl hfresh
    simp only [get_users_output, hl]
    rw [if_pos hfresh]
  · intro t out hl hstale
    simp only [get_users_output, hl]
    rw [if_neg (by omega)]
  · intro hl
    simp only [get_users_output, hl]
  · intro out2
    unfold cacheSet cacheLookup
    simp
  · intro e hq hl
    simp only [get_users_output, hl, hq]
  · simp only [get_users_output, cacheLookup_clear]

/-- Witness for C9 at concrete inputs: a 2-second-old entry is a hit
even when the query would fail; the same entry at 6 seconds is stale and
the query result is stored; after clearing, the query runs again. -/
theorem users_cache_ttl_witness :
    get_users_output 2 (.error ['b','o','o','m']) ['h','1']
        [(['h','1'], (0, ['u','s','e','r','s']))]
      = .ok (['u','s','e','r','s'], [(['h','1'], (0, ['u','s','e','r','s']))])
    ∧ get_users_output 6 (.ok ['n','e','w']) ['h','1']
        [(['h','1'], (0, ['u','s','e','r','s']))]
      = .ok (['n','e','w'], [(['h','1'], (6, ['n','e','w']))])
    ∧ get_users_output 2 (.error ['b','o','o','m']) ['h','1']
        (clear_users_cache ['h','1'] [(['h','1'], (0, ['u','s','e','r','s']))])
      = .error ['b','o','o','m'] := by
  refine ⟨?_, ?_, ?_⟩
  · exact (users_cache_ttl 2 ['h','1'] [(['h','1'], (0, ['u','s','e','r','s']))]
      (.error ['b','o','o','m'])).1 0 ['u','s','e','r','s'] (by decide) (by decide)
  · have h := (users_cache_ttl 6 ['h','1'] [(['h','1'], (0, ['u','s','e','r','s']))]
      (.ok ['n','e','w'])).2.1 0 ['u','s','e','r','s'] (by decide) (by decide)
    rw [h]
    rfl
  · have h := (users_cache_ttl 2 ['h','1']
      (clear_users_cache ['h','1'] [(['h','1'], (0, ['u','s','e','r','s']))])
      (.error ['b','o','o','m'])).2.2.1 (by decide)
    rw [h]

/-- One VM record as the master-detail screens filter it: the optional
cluster id (`vm.cluster.id`) and optional host id (`vm.host.id`). -/
structure DomVm where
  cluster : Option (List Char)
  host : Option (List Char)
deriving DecidableEq

/-- One host record as the Clusters screen filters it: id and optional
cluster id. -/
structure DomHost where
  id : List Char
  cluster : Option (List Char)
deriving DecidableEq

/-- One entry of the Networks screen's `network_info` list; only its
`vms` dataset matters to the linkage claim. -/
structure NetInfo where
  vms : List (List Char)
deriving DecidableEq

/-- rutilvm.py line 1440: `[vm for vm in all_vms if vm.cluster and
vm.cluster.id == selected_cluster.id]`. -/
def cluster_vms (all_vms : List DomVm) (cid : List Char) : List DomVm :=
  all_vms.filter fun vm =>
    match vm.cluster with
    | some c => decide (c = cid)
    | none => false

/-- rutilvm.py line 1417: `[host for host in hosts if host.cluster and
host.cluster.id == selected_cluster.id]`. -/
def cluster_hosts (hosts : List DomHost) (cid : List Char) : List DomHost :=
  hosts.filter fun h =>
    match h.cluster with
    | some c => decide (c = cid)
    | none => false

/-- rutilvm.py lines 1811 and 1899: `[vm for vm in all_vms if vm.host and
vm.host.id == selected_host.id]`. -/
def host_vms (all_vms : List DomVm) (hid : List Char) : List DomVm :=
  all_vms.filter fun vm =>
    match vm.host with
    | some h => decide (h = hid)
    | none => false

/-- The master-selection state shared by the four master-detail screens:
the highlighted master index (an `Int`, since Python index arithmetic
runs through `%` on possibly negative values) and the dependent VM
table's page. -/
structure MasterDetailState where
  idx : Int
  vmPage : Nat
deriving DecidableEq

/-- rutilvm.py lines 1526-1529: KEY_UP on the Clusters screen (guarded by
`if clusters_info:`): the master index moves up modulo the cluster count
and `vm_page = 0`. -/
def clustersKeyUp (numClusters : Nat) (st : MasterDetailState) : MasterDetailState :=
  if numClusters = 0 then st
  else { idx := (st.idx - 1) % (numClusters : Int), vmPage := 0 }

/-- rutilvm.py lines 1530-1533: KEY_DOWN on the Clusters screen. -/
def clustersKeyDown (numClusters : Nat) (st : MasterDetailState) : MasterDetailState :=
  if numClusters = 0 then st
  else { idx := (st.idx + 1) % (numClusters : Int), vmPage := 0 }

/-- rutilvm.py lines 1969-1971: KEY_UP on the Hosts screen (no emptiness
guard in the source; the screen is only reachable with hosts present). -/
def hostsKeyUp (numHosts : Nat) (st : MasterDetailState) : MasterDetailState :=
  { idx := (st.idx - 1) % (numHosts : Int), vmPage := 0 }

/-- rutilvm.py lines 1972-1974: KEY_DOWN on the Hosts screen. -/
def hostsKeyDown (numHosts : Nat) (st : MasterDetailState) : MasterDetailState :=
  { idx := (st.idx + 1) % (numHosts : Int), vmPage := 0 }

/-- rutilvm.py lines 2635-2637: KEY_UP on the Networks screen; its VM
pages are 1-based, so the reset is to page 1 (the first page). -/
def networksKeyUp (numNets : Nat) (st : MasterDetailState) : MasterDetailState :=
  { idx := (st.idx - 1) % (numNets : Int), vmPage := 1 }

/-- rutilvm.py lines 2638-2640: KEY_DOWN on the Networks screen. -/
def networksKeyDown (numNets : Nat) (st : MasterDetailState) : MasterDetailState :=
  { idx := (st.idx + 1) % (numNets : Int), vmPage := 1 }

/-- rutilvm.py lines 3021-3026 (Storage Domains `main_loop`): KEY_UP /
KEY_DOWN move the domain index modulo the domain count and `vm_page = 0`. -/
def storageKeyUp (numDomains : Nat) (st : MasterDetailState) : MasterDetailState :=
  { idx := (st.idx - 1) % (numDomains : Int), vmPage := 0 }

/-- Storage Domains KEY_DOWN, as `storageKeyUp`. -/
def storageKeyDown (numDomains : Nat) (st : MasterDetailState) : MasterDetailState :=
  { idx := (st.idx + 1) % (numDomains : Int), vmPage := 0 }

/-- The dependent datasets the Clusters screen computes at the top of the
loop iteration that follows a key press (rutilvm.py lines 1359-1362,
1404-1408, 1415-1417, 1439-1442): logical networks via the REST resolver
(`get_networks_by_cluster`, an external call keyed by the cluster id),
the cluster's hosts, and the cluster's VMs — all from the currently
selected master only. -/
def clustersRenderDeps (netResolver : List Char → List (List Char))
    (hosts : List DomHost) (all_vms : List DomVm) (cluster_ids : List (List Char))
    (st : MasterDetailState) :
    List (List Char) × List DomHost × List DomVm :=
  match cluster_ids.get? st.idx.toNat with
  | some cid => (netResolver cid, cluster_hosts hosts cid, cluster_vms all_vms cid)
  | none => ([], [], [])

/-- The dependent datasets the Hosts screen computes for the selected
host (rutilvm.py lines 1783, 1842-1845, 1899): its NICs via the SDK
resolver and its VMs. -/
def hostsRenderDeps (nicResolver : List Char → List (List Char))
    (all_vms : List DomVm) (host_ids : List (List Char)) (st : MasterDetailState) :
    List (List Char) × List DomVm :=
  match host_ids.get? st.idx.toNat with
  | some hid => (nicResolver hid, host_vms all_vms hid)
  | none => ([], [])

/-- The dependent dataset of the Networks screen (rutilvm.py line 2623):
`network_info[selected_network_idx].get("vms", [])`. -/
def networksRenderDeps (network_info : List NetInfo) (st : MasterDetailState) :
    List (List Char) :=
  match network_info.get? st.idx.toNat with
  | some ni => ni.vms
  | none => []

/-- The dependent dataset of the Storage Domains screen (rutilvm.py lines
2984-2986): the selected domain's disks via the `storage_info` lookup. -/
def storageRenderDeps (diskResolver : List Char → List (List Char))
    (domains : List (List Char)) (st : MasterDetailState) : List (List Char) :=
  match domains.get? st.idx.toNat with
  | some dom => diskResolver dom
  | none => []

/-- C2: on each of the four master-detail screens, an arrow key on the
master table resets the dependent VM table to its first page (index 0,
or 1 on the 1-page-based Networks screen) in the same input-handling
step; the master index becomes the neighbour modulo the master count;
and the dependent datasets computed for the following render are a
function of the newly selected master entity alone — equal new indices
give equal dependents regardless of the pre-move state. -/
theorem master_detail_linkage
    (netResolver nicResolver diskResolver : List Char → List (List Char))
    (hosts : List DomHost) (all_vms : List DomVm)
    (cluster_ids host_ids domains : List (List Char))
    (network_info : List NetInfo)
    (st p q : MasterDetailState) :
    ((0 < cluster_ids.length →
        (clustersKeyUp cluster_ids.length st).vmPage = 0
        ∧ (clustersKeyDown cluster_ids.length st).vmPage = 0)
      ∧ (hostsKeyUp host_ids.length st).vmPage = 0
      ∧ (hostsKeyDown host_ids.length st).vmPage = 0
      ∧ (networksKeyUp network_info.length st).vmPage = 1
      ∧ (networksKeyDown network_info.length st).vmPage = 1
      ∧ (storageKeyUp domains.length st).vmPage = 0
      ∧ (storageKeyDown domains.length st).vmPage = 0)
    ∧ (0 < cluster_ids.length →
        (clustersKeyDown cluster_ids.length st).idx
          = (st.idx + 1) % (cluster_ids.length : Int)
        ∧ (clustersKeyUp cluster_ids.length st).idx
          = (st.idx - 1) % (cluster_ids.length : Int))
    ∧ (∀ cid, cluster_ids.get? (clustersKeyDown cluster_ids.length st).idx.toNat
          = some cid →
        clustersRenderDeps netResolver hosts all_vms cluster_ids
            (clustersKeyDown cluster_ids.length st)
          = (netResolver cid, cluster_hosts hosts cid, cluster_vms all_vms cid))
    ∧ (∀ hid, host_ids.get? (hostsKeyDown host_ids.length st).idx.toNat = some hid →
        hostsRenderDeps nicResolver all_vms host_ids (hostsKeyDown host_ids.length st)
          = (nicResolver hid, host_vms all_vms hid))
    ∧ (∀ ni, network_info.get? (networksKeyDown network_info.length st).idx.toNat
          = some ni →
        networksRenderDeps network_info (networksKeyDown network_info.length st)
          = ni.vms)
    ∧ (∀ dom, domains.get? (storageKeyDown domains.length st).idx.toNat = some dom →
        storageRenderDeps diskResolver domains (storageKeyDown domains.length st)
          = diskResolver dom)
    ∧ ((clustersKeyDown cluster_ids.length p).idx
          = (clustersKeyDown cluster_ids.length q).idx →
        clustersRenderDeps netResolver hosts all_vms cluster_ids
            (clustersKeyDown cluster_ids.length p)
          = clustersRenderDeps netResolver hosts all_vms cluster_ids
              (clustersKeyDown cluster_ids.length q))
    ∧ ((hostsKeyUp host_ids.length p).idx = (hostsKeyDown host_ids.length q).idx →
        hostsRenderDeps nicResolver all_vms host_ids (hostsKeyUp host_ids.length p)
          = hostsRenderDeps nicResolver all_vms host_ids
              (hostsKeyDown host_ids.length q)) := by
  refine ⟨⟨?_, rfl, rfl, rfl, rfl, rfl, rfl⟩, ?_, ?_, ?_, ?_, ?_, ?_, ?_⟩
  · intro h
    unfold clustersKeyUp clustersKeyDown
    rw [if_neg (by omega), if_neg (by omega)]
    exact ⟨rfl, rfl⟩
  · intro h
    unfold clustersKeyUp clustersKeyDown
    rw [if_neg (by omega), if_neg (by omega)]
    exact ⟨rfl, rfl⟩
  · intro cid hcid
    unfold clustersRenderDeps
    rw [hcid]
  · intro hid hhid
    unfold hostsRenderDeps
    rw [hhid]
  · intro ni hni
    unfold networksRenderDeps
    rw [hni]
  · intro dom hdom
    unfold storageRenderDeps
    rw [hdom]
  · intro hidx
    unfold clustersRenderDeps
    rw [hidx]
  · intro hidx
    unfold hostsRenderDeps
    rw [hidx]

/-- Witness for C2 at concrete inputs: two clusters, KEY_DOWN from index
0 selects cluster "c2"; the page resets to 0 and the rendered dependents
are exactly the resolver outputs for "c2". -/
theorem master_detail_linkage_witness :
    (clustersKeyDown [['c','1'], ['c','2']].length ⟨0, 3⟩).vmPage = 0
    ∧ clustersRenderDeps (fun cid => [cid ++ ['n']])
        [⟨['h','1'], some ['c','2']⟩] [⟨some ['c','2'], none⟩]
        [['c','1'], ['c','2']] (clustersKeyDown [['c','1'], ['c','2']].length ⟨0, 3⟩)
      = ([['c','2','n']],
         [⟨['h','1'], some ['c','2']⟩], [⟨some ['c','2'], none⟩]) := by
  have h := master_detail_linkage (fun cid => [cid ++ ['n']])
    (fun _ => []) (fun _ => [])
    [⟨['h','1'], some ['c','2']⟩] [⟨some ['c','2'], none⟩]
    [['c','1'], ['c','2']] [] [] []
    ⟨0, 3⟩ ⟨0, 3⟩ ⟨0, 3⟩
  refine ⟨(h.1.1 (by decide)).2, ?_⟩
  have h2 := h.2.2.1 ['c','2'] (by decide)
  rw [h2]
  decide

end RutilVM
